import Mathlib

/-!
Verification development for the ss-bq-mcp repository: three MCP servers
(BigQuery, Google Ads, Meta Ads) that expose vendor-SDK operations as
JSON-RPC tools.  The TypeScript request dispatchers, parameter builders,
error formatters and configuration checks are shallowly embedded below.
JavaScript values are modelled by the `JsVal` inductive; property access,
truthiness, string coercion and the `||` operator follow JavaScript
semantics on that domain (floating point NaN is not modelled; the numeric
domain is Int, which covers every value the claims touch).  Vendor SDK
calls are modelled by oracles (functions from a call description to a
thrown-or-returned value) and every dispatch returns, next to the JSON-RPC
envelope, the trace of vendor calls it performed.
-/

/-- A JavaScript runtime value as seen by the dispatch code: the JSON
primitives, arrays, plain objects, plus `undefined` and `Error` instances
(carrying their message). -/
inductive JsVal where
  | vnull
  | vundefined
  | vbool (b : Bool)
  | vnum (n : Int)
  | vstr (s : String)
  | varr (elems : List JsVal)
  | vobj (fields : List (String × JsVal))
  | verror (message : String)

/-- JavaScript truthiness: `null`, `undefined`, `false`, `0` and `""` are
falsy, everything else (objects, arrays, Error instances) is truthy. -/
def jsTruthy : JsVal → Bool
  | .vnull => false
  | .vundefined => false
  | .vbool b => b
  | .vnum n => n != 0
  | .vstr s => s != ""
  | .varr _ => true
  | .vobj _ => true
  | .verror _ => true

/-- Property access `v[k]`: on a plain object the bound value (or
`undefined` when the key is absent); `message` on an Error instance yields
its message; on every other value `undefined`. -/
def jsGetProp : JsVal → String → JsVal
  | .vobj fields, k =>
    match fields.find? (fun p => p.1 == k) with
    | some p => p.2
    | none => .vundefined
  | .verror m, k => if k == "message" then .vstr m else .vundefined
  | _, _ => .vundefined

/-- Strict equality `v === "s"` against a string literal. -/
def jsStrEq (v : JsVal) (s : String) : Bool :=
  match v with
  | .vstr t => t == s
  | _ => false

/-- The JavaScript `a || b` operator: `a` when truthy, otherwise `b`. -/
def jsOr (a b : JsVal) : JsVal :=
  if jsTruthy a then a else b

/-- A destructuring default `{ x = d } = args`: applies only when the
property is `undefined` (unlike `||`, which also fires on `0`, `""`, ...). -/
def jsDestructDefault (v d : JsVal) : JsVal :=
  match v with
  | .vundefined => d
  | w => w

/-- Embeds an optional string (e.g. a `string | undefined` config field). -/
def jsOfOptStr : Option String → JsVal
  | some s => .vstr s
  | none => .vundefined

/-- Models `typeof v === "object"` (true for `null`, arrays, plain objects and
Error instances). -/
def jsTypeofObject : JsVal → Bool
  | .vnull => true
  | .varr _ => true
  | .vobj _ => true
  | .verror _ => true
  | _ => false

/-- Models `Array.isArray v`. -/
def jsIsArray : JsVal → Bool
  | .varr _ => true
  | _ => false

/-- Elements of an array value (used where the code maps over an SDK
result list). -/
def jsArrElems : JsVal → List JsVal
  | .varr xs => xs
  | _ => []

/-- Models `v.length` for arrays and strings, `undefined` otherwise. -/
def jsLength : JsVal → JsVal
  | .varr xs => .vnum xs.length
  | .vstr s => .vnum s.length
  | _ => .vundefined

/-- Whether a plain object carries a key. -/
def jsHasProp : JsVal → String → Bool
  | .vobj fields, k => fields.any (fun p => p.1 == k)
  | _, _ => false

/-- Models `Array.prototype.join(sep)` over strings (also models `[].join`,
which yields `""`, and the single-element case). -/
def joinWith (sep : String) : List String → String
  | [] => ""
  | [x] => x
  | x :: y :: ys => x ++ sep ++ joinWith sep (y :: ys)

mutual

/-- JavaScript string coercion `String(v)` / template interpolation. -/
def jsToString : JsVal → String
  | .vnull => "null"
  | .vundefined => "undefined"
  | .vbool b => if b then "true" else "false"
  | .vnum n => toString n
  | .vstr s => s
  | .verror m => "Error: " ++ m
  | .varr xs => jsArrJoinStr xs
  | .vobj _ => "[object Object]"

/-- Models `Array.prototype.toString`: elements joined by "," with `null` and
`undefined` rendered as the empty string. -/
def jsArrJoinStr : List JsVal → String
  | [] => ""
  | [v] => jsElemStr v
  | v :: w :: ws => jsElemStr v ++ "," ++ jsArrJoinStr (w :: ws)

/-- One array element under `Array.prototype.toString`. -/
def jsElemStr : JsVal → String
  | .vnull => ""
  | .vundefined => ""
  | .vbool b => if b then "true" else "false"
  | .vnum n => toString n
  | .vstr s => s
  | .verror m => "Error: " ++ m
  | .varr xs => jsArrJoinStr xs
  | .vobj _ => "[object Object]"

end

/-- Minimal JSON string quoting (backslash, quote and newline escaped;
other control characters do not occur in the values the dispatches build). -/
def jsonQuote (s : String) : String :=
  "\"" ++ String.mk (s.data.foldr (fun c acc =>
    if c = '"' then '\\' :: '"' :: acc
    else if c = '\\' then '\\' :: '\\' :: acc
    else if c = '\n' then '\\' :: 'n' :: acc
    else c :: acc) []) ++ "\""

mutual

/-- Models `JSON.stringify v`: `none` models the JavaScript call returning
`undefined` (for a top-level `undefined`).  The 2-space pretty-printing
indentation the sources pass as third argument is not modelled; only the
token content of the serialization is. -/
def jsonStringify : JsVal → Option String
  | .vundefined => none
  | .vnull => some "null"
  | .vbool b => some (if b then "true" else "false")
  | .vnum n => some (toString n)
  | .vstr s => some (jsonQuote s)
  | .verror _ => some "\x7b\x7d"
  | .varr xs => some ("[" ++ joinWith "," (jsonArrElems xs) ++ "]")
  | .vobj fs => some ("\x7b" ++ joinWith "," (jsonObjEntries fs) ++ "\x7d")

/-- Array elements under `JSON.stringify` (`undefined` renders as `null`). -/
def jsonArrElems : List JsVal → List String
  | [] => []
  | v :: rest => ((jsonStringify v).getD "null") :: jsonArrElems rest

/-- Object entries under `JSON.stringify` (`undefined`-valued keys are
dropped). -/
def jsonObjEntries : List (String × JsVal) → List String
  | [] => []
  | (k, v) :: rest =>
    match jsonStringify v with
    | none => jsonObjEntries rest
    | some sv => (jsonQuote k ++ ":" ++ sv) :: jsonObjEntries rest

end

/-- Models `JSON.stringify` as used in template positions (top-level `undefined`
coerces to the string "undefined"). -/
def jsonStringifyD (v : JsVal) : String :=
  (jsonStringify v).getD "undefined"

/-- Models `error instanceof Error ? error.message : String(error)` — the message
extraction every catch block in the BigQuery and Meta servers performs. -/
def jsErrMessage : JsVal → String
  | .verror m => m
  | v => jsToString v

/-- Whether `pat` is a prefix of `s` (character lists). -/
def charsHavePre : List Char → List Char → Bool
  | [], _ => true
  | _ :: _, [] => false
  | p :: ps, c :: cs => p == c && charsHavePre ps cs

/-- Whether `pat` occurs somewhere in `s` (character lists). -/
def charsHaveSub (pat : List Char) : List Char → Bool
  | [] => charsHavePre pat []
  | c :: cs => charsHavePre pat (c :: cs) || charsHaveSub pat cs

/-- Models `s.includes(pat)` — the substring test JavaScript strings provide. -/
def strIncludes (s pat : String) : Bool :=
  charsHaveSub pat.data s.data

/-- The whitespace characters `trim` strips (the ASCII subset suffices
for the inputs in question). -/
def isJsSpace (c : Char) : Bool :=
  c == ' ' || c == '\t' || c == '\n' || c == '\r'

/-- Models `s.trim()`: strips leading and trailing whitespace. -/
def jsTrim (s : String) : String :=
  String.mk (((s.data.dropWhile isJsSpace).reverse.dropWhile isJsSpace).reverse)

/-- Models `s.toLowerCase()` (ASCII). -/
def strToLower (s : String) : String :=
  String.mk (s.data.map Char.toLower)

/-! ## JSON-RPC envelopes (shared shape of every HTTP response the
dispatchers build) -/

/-- A JSON-RPC error object `{ code, message }`. -/
structure ErrObj where
  code : Int
  message : String
deriving DecidableEq, Repr

/-- A JSON-RPC response envelope: `jsonrpc` tag, at most one of
`result` / `error`, and the echoed correlation `id`. -/
structure Envelope where
  jsonrpc : String
  result : Option JsVal
  error : Option ErrObj
  id : JsVal

/-- Builds `{ jsonrpc: "2.0", result, id }`. -/
def okEnvelope (r : JsVal) (i : JsVal) : Envelope :=
  ⟨"2.0", some r, none, i⟩

/-- Builds `{ jsonrpc: "2.0", error: { code, message }, id }`. -/
def errEnvelope (code : Int) (msg : String) (i : JsVal) : Envelope :=
  ⟨"2.0", none, some ⟨code, msg⟩, i⟩

/-- The `try { ... return {result} } catch { return {error: -32000} }`
wrapper both `handleToolCall` implementations end with: a returned tool
result becomes a result envelope, a thrown value becomes an error envelope
with code -32000 and the message of the thrown value. -/
def toolCallEnvelope : Except JsVal JsVal → JsVal → Envelope
  | .ok toolResult, i => okEnvelope toolResult i
  | .error e, i => errEnvelope (-32000) (jsErrMessage e) i

/-- The `{ content: [{ type: "text", text }] }` tool-result shape. -/
def mkTextResult (s : String) : JsVal :=
  .vobj [("content", .varr [.vobj [("type", .vstr "text"), ("text", .vstr s)]])]

/-- Lifts a vendor-call outcome to a tool result: returned data is
JSON-serialized into a text content block, a thrown value is re-thrown. -/
def vendorTextResult : Except JsVal JsVal → Except JsVal JsVal
  | .ok data => .ok (mkTextResult (jsonStringifyD data))
  | .error e => .error e

/-! ## Meta Ads server (packages/meta-ads/src/index.ts) -/

/-- The mutable server state the Meta handlers consult: whether
`FacebookAdsApi` was initialized, and the configured default account id. -/
structure MetaState where
  apiInit : Bool
  accountId : Option String

/-- One call into the facebook-nodejs-business-sdk, with the arguments the
dispatcher computes (the constant SDK field lists passed alongside are
omitted: no claim concerns them). -/
inductive MetaVendorCall where
  | accountRead (account : String)
  | getCampaigns (account : String) (params : JsVal)
  | campaignRead (campaignId : JsVal)
  | getAdSets (campaignId : JsVal) (params : JsVal)
  | getAds (adSetId : JsVal) (params : JsVal)
  | getInsights (objectType : JsVal) (objectId : JsVal) (metrics : JsVal) (params : JsVal)

/-- A vendor oracle: what the SDK returns (or throws) for each call. -/
abbrev MetaVendor := MetaVendorCall → Except JsVal JsVal

/-- Computes `toolArgs.accountId || this.adsConfig.accountId`. -/
def metaAccountIdOr (st : MetaState) (toolArgs : JsVal) : JsVal :=
  jsOr (jsGetProp toolArgs "accountId") (jsOfOptStr st.accountId)

/-- The `filtering` parameter built when a `status` argument is supplied. -/
def metaStatusFiltering (status : JsVal) : JsVal :=
  .varr [.vobj [("field", .vstr "status"), ("operator", .vstr "IN"),
                ("value", .varr [status])]]

/-- Builds `campaignParams` of the `list_campaigns` branch:
`{ limit: toolArgs.limit || 25 }`, plus `filtering` when a status is given. -/
def metaCampaignListParams (toolArgs : JsVal) : JsVal :=
  let base := [("limit", jsOr (jsGetProp toolArgs "limit") (.vnum 25))]
  if jsTruthy (jsGetProp toolArgs "status") then
    .vobj (base ++ [("filtering", metaStatusFiltering (jsGetProp toolArgs "status"))])
  else
    .vobj base

/-- Builds `adsetParams` of the `list_adsets` branch (same shape, default 25). -/
def metaAdsetListParams (toolArgs : JsVal) : JsVal :=
  let base := [("limit", jsOr (jsGetProp toolArgs "limit") (.vnum 25))]
  if jsTruthy (jsGetProp toolArgs "status") then
    .vobj (base ++ [("filtering", metaStatusFiltering (jsGetProp toolArgs "status"))])
  else
    .vobj base

/-- Builds `adParams` of the `list_ads` branch (same shape, default 25). -/
def metaAdsListParams (toolArgs : JsVal) : JsVal :=
  let base := [("limit", jsOr (jsGetProp toolArgs "limit") (.vnum 25))]
  if jsTruthy (jsGetProp toolArgs "status") then
    .vobj (base ++ [("filtering", metaStatusFiltering (jsGetProp toolArgs "status"))])
  else
    .vobj base

/-- Builds `insightParams` of `get_insights`: `date_preset` when a preset is
supplied, else `time_range` when a range is supplied, else the
`"lifetime"` preset. -/
def metaInsightParams (datePreset timeRange : JsVal) : JsVal :=
  if jsTruthy datePreset then .vobj [("date_preset", datePreset)]
  else if jsTruthy timeRange then .vobj [("time_range", timeRange)]
  else .vobj [("date_preset", .vstr "lifetime")]

/-- The `defaultMetrics` list of `get_insights`. -/
def metaDefaultMetrics : JsVal :=
  .varr [.vstr "impressions", .vstr "clicks", .vstr "spend", .vstr "reach",
         .vstr "frequency", .vstr "cpm", .vstr "cpc", .vstr "ctr",
         .vstr "cost_per_result", .vstr "results"]

/-- The names the Meta `handleToolCall` switch recognizes. -/
def metaToolNames : List String :=
  ["get_account_info", "list_campaigns", "get_campaign", "list_adsets",
   "list_ads", "get_insights"]

/-- The `switch (toolName)` body of the Meta `handleToolCall` (the code
inside its try block): produces either a tool result or a thrown value,
together with the vendor calls performed. -/
def metaToolSwitch (st : MetaState) (vendor : MetaVendor)
    (toolName toolArgs : JsVal) : Except JsVal JsVal × List MetaVendorCall :=
  if jsStrEq toolName "get_account_info" then
    if !st.apiInit then (.error (.verror "Meta Ads API not initialized"), [])
    else
      let accountId := metaAccountIdOr st toolArgs
      if !jsTruthy accountId then
        (.error (.verror "No account ID provided and no default account ID configured"), [])
      else
        let c := MetaVendorCall.accountRead ("act_" ++ jsToString accountId)
        (vendorTextResult (vendor c), [c])
  else if jsStrEq toolName "list_campaigns" then
    if !st.apiInit then (.error (.verror "Meta Ads API not initialized"), [])
    else
      let campaignAccountId := metaAccountIdOr st toolArgs
      if !jsTruthy campaignAccountId then
        (.error (.verror "No account ID provided and no default account ID configured"), [])
      else
        let c := MetaVendorCall.getCampaigns ("act_" ++ jsToString campaignAccountId)
          (metaCampaignListParams toolArgs)
        (vendorTextResult (vendor c), [c])
  else if jsStrEq toolName "get_campaign" then
    if !st.apiInit then (.error (.verror "Meta Ads API not initialized"), [])
    else
      let c := MetaVendorCall.campaignRead (jsGetProp toolArgs "campaignId")
      (vendorTextResult (vendor c), [c])
  else if jsStrEq toolName "list_adsets" then
    if !st.apiInit then (.error (.verror "Meta Ads API not initialized"), [])
    else
      let c := MetaVendorCall.getAdSets (jsGetProp toolArgs "campaignId")
        (metaAdsetListParams toolArgs)
      (vendorTextResult (vendor c), [c])
  else if jsStrEq toolName "list_ads" then
    if !st.apiInit then (.error (.verror "Meta Ads API not initialized"), [])
    else
      let c := MetaVendorCall.getAds (jsGetProp toolArgs "adSetId")
        (metaAdsListParams toolArgs)
      (vendorTextResult (vendor c), [c])
  else if jsStrEq toolName "get_insights" then
    if !st.apiInit then (.error (.verror "Meta Ads API not initialized"), [])
    else
      let objectType := jsGetProp toolArgs "objectType"
      if jsStrEq objectType "campaign" || jsStrEq objectType "adset"
          || jsStrEq objectType "ad" then
        let insightParams := metaInsightParams (jsGetProp toolArgs "datePreset")
          (jsGetProp toolArgs "timeRange")
        let metrics := jsOr (jsGetProp toolArgs "metrics") metaDefaultMetrics
        let c := MetaVendorCall.getInsights objectType (jsGetProp toolArgs "objectId")
          metrics insightParams
        (vendorTextResult (vendor c), [c])
      else
        (.error (.verror "Invalid object type"), [])
  else
    (.error (.verror ("Unknown tool: " ++ jsToString toolName)), [])

/-- Models `handleToolCall` of the Meta server: extracts
`request.params?.name` and `request.params?.arguments || {}`, runs the
switch under try/catch, and wraps the outcome into an envelope carrying
`request.id`. -/
def metaHandleToolCall (st : MetaState) (vendor : MetaVendor)
    (request : JsVal) : Envelope × List MetaVendorCall :=
  let toolName := jsGetProp (jsGetProp request "params") "name"
  let toolArgs := jsOr (jsGetProp (jsGetProp request "params") "arguments") (.vobj [])
  let r := metaToolSwitch st vendor toolName toolArgs
  (toolCallEnvelope r.1 (jsGetProp request "id"), r.2)

/-- The declared input schema of `get_campaign` in the Meta
`handleToolsList` catalog: `campaignId` is a required string. -/
def metaGetCampaignSchema : JsVal :=
  .vobj [("type", .vstr "object"),
         ("properties", .vobj
           [("campaignId", .vobj [("type", .vstr "string"),
             ("description", .vstr "The campaign ID to get details for")])]),
         ("required", .varr [.vstr "campaignId"])]

/-- Models `handleToolsList` of the Meta server: the static tool catalog
(names, descriptions and input schemas from the source). -/
def metaToolsListJson : JsVal :=
  .varr
    [ .vobj [("name", .vstr "get_account_info"),
             ("description", .vstr "Get information about the Meta Ads account"),
             ("inputSchema", .vobj
               [("type", .vstr "object"),
                ("properties", .vobj
                  [("accountId", .vobj [("type", .vstr "string"),
                    ("description", .vstr "Account ID (uses default if not provided)")])])])],
      .vobj [("name", .vstr "list_campaigns"),
             ("description", .vstr "List campaigns in the Meta Ads account"),
             ("inputSchema", .vobj
               [("type", .vstr "object"),
                ("properties", .vobj
                  [("accountId", .vobj [("type", .vstr "string"),
                    ("description", .vstr "Account ID (uses default if not provided)")]),
                   ("limit", .vobj [("type", .vstr "number"),
                    ("description", .vstr "Maximum number of campaigns to return (default: 25)")]),
                   ("status", .vobj [("type", .vstr "string"),
                    ("enum", .varr [.vstr "ACTIVE", .vstr "PAUSED", .vstr "DELETED", .vstr "ARCHIVED"]),
                    ("description", .vstr "Filter by campaign status")])])])],
      .vobj [("name", .vstr "get_campaign"),
             ("description", .vstr "Get detailed information about a specific campaign"),
             ("inputSchema", metaGetCampaignSchema)],
      .vobj [("name", .vstr "list_adsets"),
             ("description", .vstr "List ad sets for a campaign"),
             ("inputSchema", .vobj
               [("type", .vstr "object"),
                ("properties", .vobj
                  [("campaignId", .vobj [("type", .vstr "string"),
                    ("description", .vstr "The campaign ID to list ad sets for")]),
                   ("limit", .vobj [("type", .vstr "number"),
                    ("description", .vstr "Maximum number of ad sets to return (default: 25)")]),
                   ("status", .vobj [("type", .vstr "string"),
                    ("enum", .varr [.vstr "ACTIVE", .vstr "PAUSED", .vstr "DELETED", .vstr "ARCHIVED"]),
                    ("description", .vstr "Filter by ad set status")])]),
                ("required", .varr [.vstr "campaignId"])])],
      .vobj [("name", .vstr "list_ads"),
             ("description", .vstr "List ads for an ad set"),
             ("inputSchema", .vobj
               [("type", .vstr "object"),
                ("properties", .vobj
                  [("adSetId", .vobj [("type", .vstr "string"),
                    ("description", .vstr "The ad set ID to list ads for")]),
                   ("limit", .vobj [("type", .vstr "number"),
                    ("description", .vstr "Maximum number of ads to return (default: 25)")]),
                   ("status", .vobj [("type", .vstr "string"),
                    ("enum", .varr [.vstr "ACTIVE", .vstr "PAUSED", .vstr "DELETED", .vstr "ARCHIVED"]),
                    ("description", .vstr "Filter by ad status")])]),
                ("required", .varr [.vstr "adSetId"])])],
      .vobj [("name", .vstr "get_insights"),
             ("description", .vstr "Get performance insights for campaigns, ad sets, or ads"),
             ("inputSchema", .vobj
               [("type", .vstr "object"),
                ("properties", .vobj
                  [("objectId", .vobj [("type", .vstr "string"),
                    ("description", .vstr "The ID of the campaign, ad set, or ad to get insights for")]),
                   ("objectType", .vobj [("type", .vstr "string"),
                    ("enum", .varr [.vstr "campaign", .vstr "adset", .vstr "ad"]),
                    ("description", .vstr "The type of object to get insights for")]),
                   ("datePreset", .vobj [("type", .vstr "string"),
                    ("enum", .varr [.vstr "today", .vstr "yesterday", .vstr "this_week",
                      .vstr "last_week", .vstr "this_month", .vstr "last_month", .vstr "lifetime"]),
                    ("description", .vstr "Date preset for the insights")]),
                   ("timeRange", .vobj [("type", .vstr "object"),
                    ("properties", .vobj
                      [("since", .vobj [("type", .vstr "string"),
                        ("description", .vstr "Start date (YYYY-MM-DD)")]),
                       ("until", .vobj [("type", .vstr "string"),
                        ("description", .vstr "End date (YYYY-MM-DD)")])]),
                    ("description", .vstr "Custom date range (alternative to datePreset)")]),
                   ("metrics", .vobj [("type", .vstr "array"),
                    ("items", .vobj [("type", .vstr "string")]),
                    ("description", .vstr "Specific metrics to retrieve")])]),
                ("required", .varr [.vstr "objectId", .vstr "objectType"])])]]

/-- The `initialize` result the HTTP dispatch of the base server returns,
instantiated with the config name and version of the Meta server. -/
def metaInitializeResult : JsVal :=
  .vobj [("protocolVersion", .vstr "2024-11-05"),
         ("capabilities", .vobj [("tools", .vobj [("listChanged", .vbool true)])]),
         ("serverInfo", .vobj [("name", .vstr "meta-ads-mcp-server"),
                               ("version", .vstr "1.0.0")])]

/-- The `POST /mcp` switch of `BaseMCPServer.runHTTP` as instantiated by
the Meta server: `initialize`, `tools/list`, `tools/call`, and the
method-not-found default. -/
def metaMcpDispatch (st : MetaState) (vendor : MetaVendor)
    (request : JsVal) : Envelope × List MetaVendorCall :=
  if jsStrEq (jsGetProp request "method") "initialize" then
    (okEnvelope metaInitializeResult (jsGetProp request "id"), [])
  else if jsStrEq (jsGetProp request "method") "tools/list" then
    (okEnvelope (.vobj [("tools", metaToolsListJson)]) (jsGetProp request "id"), [])
  else if jsStrEq (jsGetProp request "method") "tools/call" then
    metaHandleToolCall st vendor request
  else
    (errEnvelope (-32601) "Method not found" (jsGetProp request "id"), [])

/-! ## Google Ads server (packages/google-ads/src/index.ts) -/

/-- The Google Ads configuration read from the environment. -/
structure GoogleAdsConfig where
  customerId : Option String
  developerToken : Option String
  clientId : Option String
  clientSecret : Option String
  refreshToken : Option String

/-- Dynamic field lookup `this.config[field]`. -/
def googleConfigGet (c : GoogleAdsConfig) : String → Option String
  | "customerId" => c.customerId
  | "developerToken" => c.developerToken
  | "clientId" => c.clientId
  | "clientSecret" => c.clientSecret
  | "refreshToken" => c.refreshToken
  | _ => none

/-- Truthiness of an optional env string (`!this.config[field]` treats an
absent variable and an empty string alike). -/
def optTruthy : Option String → Bool
  | none => false
  | some s => s != ""

/-- The `requiredFields` list of `initializeGoogleAds`. -/
def googleRequiredFields : List String :=
  ["customerId", "developerToken", "clientId", "clientSecret", "refreshToken"]

/-- Computes `field.replace(/([A-Z])/g, "_$1").toUpperCase()` — the camelCase to
ENV_VAR suffix conversion both initializers use. -/
def camelToEnvVar (field : String) : String :=
  (String.mk (field.data.foldr
    (fun ch acc => if ch.isUpper then '_' :: ch :: acc else ch :: acc) [])).toUpper

/-- The `missingFields` computation of `initializeGoogleAds`. -/
def googleMissingFields (c : GoogleAdsConfig) : List String :=
  googleRequiredFields.filter (fun field => !optTruthy (googleConfigGet c field))

/-- Models `initializeGoogleAds`: throws (modelled as `.error` with the thrown
message) when any required field is falsy, listing the corresponding
environment variables; otherwise constructs the API client. -/
def initializeGoogleAds (c : GoogleAdsConfig) : Except String Unit :=
  if (googleMissingFields c).length > 0 then
    .error ("Missing required Google Ads configuration. Please set the following environment variables:\n"
      ++ joinWith "\n" ((googleMissingFields c).map
           (fun field => "- GOOGLE_ADS_" ++ camelToEnvVar field))
      ++ "\n\nYou can create a .env file in the root directory with these variables.")
  else
    .ok ()

/-- Models `formatError` of the Google Ads server: Error instances yield their
message; objects with a vendor `errors` array yield the sub-error messages
joined by "; " (with "Unknown error" for a message-less sub-error);
objects with a truthy `message` yield it; everything else is
string-coerced. -/
def formatError (error : JsVal) : String :=
  match error with
  | .verror m => m
  | _ =>
    if jsTruthy error && jsTypeofObject error then
      let errs := jsGetProp error "errors"
      if jsTruthy errs && jsIsArray errs then
        joinWith "; " ((jsArrElems errs).map
          (fun e => jsToString (jsOr (jsGetProp e "message") (.vstr "Unknown error"))))
      else if jsTruthy (jsGetProp error "message") then
        jsToString (jsGetProp error "message")
      else
        jsToString error
    else
      jsToString error

/-- Computes `const limit = args.limit || 50` of the Google `list_campaigns`
handler — the bound interpolated into the GAQL `LIMIT` clause sent to the
vendor client. -/
def googleListCampaignsLimit (args : JsVal) : JsVal :=
  jsOr (jsGetProp args "limit") (.vnum 50)

/-- Computes `const limit = args.limit || 100` of `execute_gaql_query`. -/
def gaqlQueryLimit (args : JsVal) : JsVal :=
  jsOr (jsGetProp args "limit") (.vnum 100)

/-- The final GAQL text of `execute_gaql_query`:
`finalQuery = args.query.trim()`, then " LIMIT <limit>" is appended
unless the lowercased text already contains "limit". -/
def gaqlFinalQuery (args : JsVal) : String :=
  let finalQuery0 := jsTrim (jsToString (jsGetProp args "query"))
  if !strIncludes (strToLower finalQuery0) "limit" then
    finalQuery0 ++ " LIMIT " ++ jsToString (gaqlQueryLimit args)
  else
    finalQuery0

/-- The `execute_gaql_query` handler: guards on a truthy `query`, trims
the text, appends " LIMIT <limit>" unless the lowercased text already
contains "limit", and sends the final text to `customer.query`.  Returns
the content payload of the handler (or the thrown value when the client is
uninitialized) plus the queries sent to the vendor. -/
def executeGaqlHandler (googleAdsInit : Bool)
    (vendor : String → Except JsVal JsVal) (args : JsVal) :
    Except JsVal JsVal × List String :=
  if !googleAdsInit then
    (.error (.verror "Google Ads client not initialized"), [])
  else if !jsTruthy (jsGetProp args "query") then
    (.ok (mkTextResult "Error: Query parameter is required"), [])
  else
    match vendor (gaqlFinalQuery args) with
    | .ok results => (.ok (mkTextResult (jsonStringifyD results)), [gaqlFinalQuery args])
    | .error e =>
      (.ok (mkTextResult ("Error executing GAQL query: " ++ formatError e)),
       [gaqlFinalQuery args])

/-! ## Meta Ads configuration check (initializeMetaAds) -/

/-- The Meta Ads configuration read from the environment. -/
structure MetaAdsEnvConfig where
  accessToken : Option String
  appId : Option String
  appSecret : Option String
  accountId : Option String

/-- Dynamic field lookup `this.adsConfig[field]`. -/
def metaConfigGet (c : MetaAdsEnvConfig) : String → Option String
  | "accessToken" => c.accessToken
  | "appId" => c.appId
  | "appSecret" => c.appSecret
  | "accountId" => c.accountId
  | _ => none

/-- The `requiredFields` list of `initializeMetaAds` (`accountId` is optional). -/
def metaRequiredFields : List String :=
  ["accessToken", "appId", "appSecret"]

/-- The `missingFields` computation of `initializeMetaAds`. -/
def metaMissingFields (c : MetaAdsEnvConfig) : List String :=
  metaRequiredFields.filter (fun field => !optTruthy (metaConfigGet c field))

/-- Models `initializeMetaAds`: throws when any required field is falsy, listing
the corresponding environment variables; otherwise initializes the SDK. -/
def initializeMetaAds (c : MetaAdsEnvConfig) : Except String Unit :=
  if (metaMissingFields c).length > 0 then
    .error ("Missing required Meta Ads configuration. Please set the following environment variables:\n"
      ++ joinWith "\n" ((metaMissingFields c).map
           (fun field => "- META_ADS_" ++ camelToEnvVar field)))
  else
    .ok ()

/-! ## BigQuery server (src/index.ts) -/

/-- The BigQuery server state: whether the client was initialized, and
the configured location (set to "US" in the constructor). -/
structure BqState where
  bigqueryInit : Bool
  location : String

/-- One call into the @google-cloud/bigquery SDK with the arguments the
dispatcher computes. -/
inductive BqVendorCall where
  | getDatasets
  | getTables (datasetId : JsVal)
  | tableGetMetadata (datasetId : JsVal) (tableId : JsVal)
  | createQueryJob (options : JsVal)
  | jobGetMetadata (job : JsVal)
  | jobGetQueryResults (job : JsVal) (maxResults : JsVal)
  | getQueryResultsById (jobId : JsVal) (maxResults : JsVal)

/-- A BigQuery vendor oracle. -/
abbrev BqVendor := BqVendorCall → Except JsVal JsVal

/-- One entry of the `list_datasets` response

`{ id, friendlyName: dataset.metadata?.friendlyName || null, ... }`. -/
def bqDatasetItem (dataset : JsVal) : JsVal :=
  .vobj [("id", jsGetProp dataset "id"),
         ("friendlyName", jsOr (jsGetProp (jsGetProp dataset "metadata") "friendlyName") .vnull),
         ("description", jsOr (jsGetProp (jsGetProp dataset "metadata") "description") .vnull),
         ("location", jsOr (jsGetProp (jsGetProp dataset "metadata") "location") .vnull),
         ("creationTime", jsOr (jsGetProp (jsGetProp dataset "metadata") "creationTime") .vnull)]

/-- One entry of the `list_tables` response. -/
def bqTableItem (table : JsVal) : JsVal :=
  .vobj [("id", jsGetProp table "id"),
         ("friendlyName", jsOr (jsGetProp (jsGetProp table "metadata") "friendlyName") .vnull),
         ("description", jsOr (jsGetProp (jsGetProp table "metadata") "description") .vnull),
         ("type", jsOr (jsGetProp (jsGetProp table "metadata") "type") .vnull),
         ("numRows", jsOr (jsGetProp (jsGetProp table "metadata") "numRows") .vnull),
         ("numBytes", jsOr (jsGetProp (jsGetProp table "metadata") "numBytes") .vnull),
         ("creationTime", jsOr (jsGetProp (jsGetProp table "metadata") "creationTime") .vnull),
         ("lastModifiedTime", jsOr (jsGetProp (jsGetProp table "metadata") "lastModifiedTime") .vnull)]

/-- The query-job options of `execute_query`:
`{ query, location, dryRun = false, maxResults = 100 }` with destructuring
defaults. -/
def bqExecuteQueryOptions (st : BqState) (toolArgs : JsVal) : JsVal :=
  .vobj [("query", jsGetProp toolArgs "query"),
         ("location", .vstr st.location),
         ("dryRun", jsDestructDefault (jsGetProp toolArgs "dryRun") (.vbool false)),
         ("maxResults", jsDestructDefault (jsGetProp toolArgs "maxResults") (.vnum 100))]

/-- The names the BigQuery HTTP `tools/call` switch recognizes. -/
def bqToolNames : List String :=
  ["list_datasets", "list_tables", "get_table_schema", "execute_query",
   "get_query_results"]

/-- The `switch (toolName)` body of the BigQuery HTTP `tools/call`
branch (the code inside its try block). -/
def bqToolSwitch (st : BqState) (vendor : BqVendor)
    (toolName toolArgs : JsVal) : Except JsVal JsVal × List BqVendorCall :=
  if jsStrEq toolName "list_datasets" then
    if !st.bigqueryInit then (.error (.verror "BigQuery client not initialized"), [])
    else
      match vendor .getDatasets with
      | .error e => (.error e, [.getDatasets])
      | .ok datasets =>
        let datasetList := JsVal.varr ((jsArrElems datasets).map bqDatasetItem)
        (.ok (mkTextResult (jsonStringifyD datasetList)), [.getDatasets])
  else if jsStrEq toolName "list_tables" then
    if !st.bigqueryInit then (.error (.verror "BigQuery client not initialized"), [])
    else
      let datasetId := jsGetProp toolArgs "datasetId"
      match vendor (.getTables datasetId) with
      | .error e => (.error e, [.getTables datasetId])
      | .ok tables =>
        let tableList := JsVal.varr ((jsArrElems tables).map bqTableItem)
        (.ok (mkTextResult (jsonStringifyD tableList)), [.getTables datasetId])
  else if jsStrEq toolName "get_table_schema" then
    if !st.bigqueryInit then (.error (.verror "BigQuery client not initialized"), [])
    else
      let schemaDatasetId := jsGetProp toolArgs "datasetId"
      let tableId := jsGetProp toolArgs "tableId"
      match vendor (.tableGetMetadata schemaDatasetId tableId) with
      | .error e => (.error e, [.tableGetMetadata schemaDatasetId tableId])
      | .ok metadata =>
        let schema := JsVal.vobj
          [("tableId", tableId),
           ("datasetId", schemaDatasetId),
           ("schema", jsGetProp metadata "schema"),
           ("numRows", jsGetProp metadata "numRows"),
           ("numBytes", jsGetProp metadata "numBytes"),
           ("creationTime", jsGetProp metadata "creationTime"),
           ("lastModifiedTime", jsGetProp metadata "lastModifiedTime"),
           ("friendlyName", jsGetProp metadata "friendlyName"),
           ("description", jsGetProp metadata "description")]
        (.ok (mkTextResult (jsonStringifyD schema)), [.tableGetMetadata schemaDatasetId tableId])
  else if jsStrEq toolName "execute_query" then
    if !st.bigqueryInit then (.error (.verror "BigQuery client not initialized"), [])
    else
      let dryRun := jsDestructDefault (jsGetProp toolArgs "dryRun") (.vbool false)
      let maxResults := jsDestructDefault (jsGetProp toolArgs "maxResults") (.vnum 100)
      let options := bqExecuteQueryOptions st toolArgs
      match vendor (.createQueryJob options) with
      | .error e => (.error e, [.createQueryJob options])
      | .ok job =>
        if jsTruthy dryRun then
          match vendor (.jobGetMetadata job) with
          | .error e => (.error e, [.createQueryJob options, .jobGetMetadata job])
          | .ok jobMetadata =>
            let payload := JsVal.vobj
              [("jobId", jsGetProp job "id"),
               ("valid", .vbool true),
               ("totalBytesProcessed",
                 jsOr (jsGetProp (jsGetProp (jsGetProp jobMetadata "statistics") "query")
                        "totalBytesProcessed") (.vstr "0")),
               ("estimatedCost", .vstr "Query is valid")]
            (.ok (mkTextResult (jsonStringifyD payload)),
             [.createQueryJob options, .jobGetMetadata job])
        else
          match vendor (.jobGetQueryResults job maxResults) with
          | .error e => (.error e, [.createQueryJob options, .jobGetQueryResults job maxResults])
          | .ok rows =>
            let payload := JsVal.vobj
              [("jobId", jsGetProp job "id"), ("rows", rows), ("totalRows", jsLength rows)]
            (.ok (mkTextResult (jsonStringifyD payload)),
             [.createQueryJob options, .jobGetQueryResults job maxResults])
  else if jsStrEq toolName "get_query_results" then
    if !st.bigqueryInit then (.error (.verror "BigQuery client not initialized"), [])
    else
      let jobId := jsGetProp toolArgs "jobId"
      let maxResultsForJob := jsDestructDefault (jsGetProp toolArgs "maxResults") (.vnum 100)
      match vendor (.getQueryResultsById jobId maxResultsForJob) with
      | .error e => (.error e, [.getQueryResultsById jobId maxResultsForJob])
      | .ok rows =>
        let payload := JsVal.vobj
          [("jobId", jobId), ("rows", rows), ("totalRows", jsLength rows)]
        (.ok (mkTextResult (jsonStringifyD payload)),
         [.getQueryResultsById jobId maxResultsForJob])
  else
    (.error (.verror ("Unknown tool: " ++ jsToString toolName)), [])

/-- The `tools/call` case of the BigQuery HTTP dispatch: extracts name and
arguments, runs the switch under try/catch, and wraps the outcome into a
result or -32000 error envelope carrying `request.id`. -/
def bqHandleToolCall (st : BqState) (vendor : BqVendor)
    (request : JsVal) : Envelope × List BqVendorCall :=
  let toolName := jsGetProp (jsGetProp request "params") "name"
  let toolArgs := jsOr (jsGetProp (jsGetProp request "params") "arguments") (.vobj [])
  let r := bqToolSwitch st vendor toolName toolArgs
  (toolCallEnvelope r.1 (jsGetProp request "id"), r.2)

/-- The `initialize` result of the BigQuery HTTP dispatch. -/
def bqInitializeResult : JsVal :=
  .vobj [("protocolVersion", .vstr "2024-11-05"),
         ("capabilities", .vobj [("tools", .vobj [("listChanged", .vbool true)])]),
         ("serverInfo", .vobj [("name", .vstr "bigquery-mcp-server"),
                               ("version", .vstr "1.0.0")])]

/-- The BigQuery `tools/list` catalog (names, descriptions and input
schemas from the source). -/
def bqToolsListJson : JsVal :=
  .varr
    [ .vobj [("name", .vstr "list_datasets"),
             ("description", .vstr "List all datasets in the BigQuery project"),
             ("inputSchema", .vobj [("type", .vstr "object"),
               ("properties", .vobj []), ("required", .varr [])])],
      .vobj [("name", .vstr "list_tables"),
             ("description", .vstr "List all tables in a specific dataset"),
             ("inputSchema", .vobj [("type", .vstr "object"),
               ("properties", .vobj
                 [("datasetId", .vobj [("type", .vstr "string"),
                   ("description", .vstr "The dataset ID to list tables from")])]),
               ("required", .varr [.vstr "datasetId"])])],
      .vobj [("name", .vstr "get_table_schema"),
             ("description", .vstr "Get the schema of a specific table"),
             ("inputSchema", .vobj [("type", .vstr "object"),
               ("properties", .vobj
                 [("datasetId", .vobj [("type", .vstr "string"),
                   ("description", .vstr "The dataset ID containing the table")]),
                  ("tableId", .vobj [("type", .vstr "string"),
                   ("description", .vstr "The table ID to get schema for")])]),
               ("required", .varr [.vstr "datasetId", .vstr "tableId"])])],
      .vobj [("name", .vstr "execute_query"),
             ("description", .vstr "Execute a BigQuery SQL query"),
             ("inputSchema", .vobj [("type", .vstr "object"),
               ("properties", .vobj
                 [("query", .vobj [("type", .vstr "string"),
                   ("description", .vstr "The SQL query to execute")]),
                  ("dryRun", .vobj [("type", .vstr "boolean"),
                   ("description", .vstr "If true, only validate the query without executing it")]),
                  ("maxResults", .vobj [("type", .vstr "number"),
                   ("description", .vstr "Maximum number of results to return (default: 100)")])]),
               ("required", .varr [.vstr "query"])])],
      .vobj [("name", .vstr "get_query_results"),
             ("description", .vstr "Get results from a previously executed query job"),
             ("inputSchema", .vobj [("type", .vstr "object"),
               ("properties", .vobj
                 [("jobId", .vobj [("type", .vstr "string"),
                   ("description", .vstr "The job ID of the query to get results for")]),
                  ("maxResults", .vobj [("type", .vstr "number"),
                   ("description", .vstr "Maximum number of results to return (default: 100)")])]),
               ("required", .varr [.vstr "jobId"])])]]

/-- The `POST /mcp` switch of the `runHTTP` of the BigQuery server. -/
def bqMcpDispatch (st : BqState) (vendor : BqVendor)
    (request : JsVal) : Envelope × List BqVendorCall :=
  if jsStrEq (jsGetProp request "method") "initialize" then
    (okEnvelope bqInitializeResult (jsGetProp request "id"), [])
  else if jsStrEq (jsGetProp request "method") "tools/list" then
    (okEnvelope (.vobj [("tools", bqToolsListJson)]) (jsGetProp request "id"), [])
  else if jsStrEq (jsGetProp request "method") "tools/call" then
    bqHandleToolCall st vendor request
  else
    (errEnvelope (-32601) "Method not found" (jsGetProp request "id"), [])

/-! ## BaseMCPServer transport selection (packages/shared/src/base-server.ts) -/

/-- Computes `args.find(arg => arg.startsWith(pre))` together with the element that
follows it (`args[index + 1]`, absent at the end of the vector).  Because
`find` returns the first element satisfying the predicate and any
duplicate of that exact string also satisfies it, `args.indexOf` of the
found value is the found position, so the pair captures the
find/indexOf combination of the source. -/
def findArgWithNext (pre : String) : List String → Option (String × Option String)
  | [] => none
  | a :: rest =>
    if a.startsWith pre then some (a, rest.head?) else findArgWithNext pre rest

/-- Models `BaseMCPServer.getTransportMode`: an explicit `--transport` argument
(in `--transport=mode` or `--transport mode` form) selects "http" exactly
when the mode is the string "http" and "stdio" otherwise; with no such
argument, a `--port` argument or a bare "http" selects "http"; the default
is "stdio". -/
def getTransportMode (argv : List String) : String :=
  match findArgWithNext "--transport" argv with
  | some (transportArg, next) =>
    if strIncludes transportArg "=" then
      if (transportArg.splitOn "=").get? 1 == some "http" then "http" else "stdio"
    else
      if next == some "http" then "http" else "stdio"
  | none =>
    if argv.any (fun arg => arg.startsWith "--port" || arg == "http") then "http"
    else "stdio"

/-- Models `parseInt(s)` restricted to what `getPort` feeds it: optional leading
whitespace, an optional sign, then a decimal digit prefix; `none` models
NaN. -/
def jsParseInt (s : String) : Option Int :=
  let chars := s.data.dropWhile (fun c => c == ' ' || c == '\t' || c == '\n')
  let (neg, digits) :=
    match chars with
    | '-' :: rest => (true, rest)
    | '+' :: rest => (false, rest)
    | rest => (false, rest)
  let digitPre := digits.takeWhile Char.isDigit
  if digitPre.isEmpty then none
  else
    let n := digitPre.foldl (fun acc c => acc * 10 + (c.toNat - '0'.toNat)) 0
    some (if neg then -(n : Int) else (n : Int))

/-- Computes `parseInt(x) || 3000` (NaN and 0 both fall back to 3000). -/
def parseIntOr3000 (o : Option Int) : Int :=
  match o with
  | some n => if n = 0 then 3000 else n
  | none => 3000

/-- Models `BaseMCPServer.getPort`. -/
def getPort (argv : List String) : Int :=
  match findArgWithNext "--port" argv with
  | some (portArg, next) =>
    if strIncludes portArg "=" then
      parseIntOr3000 (jsParseInt (((portArg.splitOn "=").get? 1).getD "undefined"))
    else
      parseIntOr3000 (jsParseInt (next.getD "undefined"))
  | none => 3000

/-- What `BaseMCPServer.run` does: start the stdio transport, start the
HTTP transport on the detected port, or print "Unknown transport mode" and
exit(1). -/
inductive RunOutcome where
  | stdioStarted
  | httpStarted (port : Int)
  | unknownModeExit
deriving DecidableEq, Repr

/-- Models `BaseMCPServer.run`: switches on `getTransportMode`. -/
def baseRun (argv : List String) : RunOutcome :=
  match getTransportMode argv with
  | "stdio" => .stdioStarted
  | "http" => .httpStarted (getPort argv)
  | _ => .unknownModeExit

/-! ## Substring occurrence (propositional form, for the configuration
error messages) -/

/-- Holds when `pat` occurs contiguously inside `s`. -/
def StrContains (s pat : String) : Prop :=
  ∃ a b : List Char, s.data = a ++ pat.data ++ b

/-- Data of an appended string. -/
theorem strData_append (a b : String) : (a ++ b).data = a.data ++ b.data := by
  cases a
  cases b
  rfl

/-- Occurrence survives surrounding text. -/
theorem strContains_extend (pre post s pat : String) (h : StrContains s pat) :
    StrContains (pre ++ s ++ post) pat := by
  obtain ⟨a, b, hab⟩ := h
  exact ⟨pre.data ++ a, b ++ post.data, by
    simp [strData_append, hab, List.append_assoc]⟩

/-- Occurrence survives a prefix. -/
theorem strContains_extend_left (pre s pat : String) (h : StrContains s pat) :
    StrContains (pre ++ s) pat := by
  obtain ⟨a, b, hab⟩ := h
  exact ⟨pre.data ++ a, b, by simp [strData_append, hab, List.append_assoc]⟩

/-- An occurrence of `x ++ pat` contains an occurrence of `pat`. -/
theorem strContains_dropPre (s x pat : String) (h : StrContains s (x ++ pat)) :
    StrContains s pat := by
  obtain ⟨a, b, hab⟩ := h
  exact ⟨a ++ x.data, b, by simp [strData_append, List.append_assoc] at hab ⊢; exact hab⟩

/-- Every element of a joined list occurs in the join. -/
theorem joinWith_contains (sep : String) (x : String) :
    ∀ l : List String, x ∈ l → StrContains (joinWith sep l) x := by
  intro l
  induction l with
  | nil => intro h; cases h
  | cons y ys ih =>
    intro hmem
    rcases List.mem_cons.mp hmem with rfl | hx
    · cases ys with
      | nil => exact ⟨[], [], by simp [joinWith]⟩
      | cons z zs =>
        exact ⟨[], (sep ++ joinWith sep (z :: zs)).data, by
          simp [joinWith, strData_append, List.append_assoc]⟩
    · cases ys with
      | nil => cases hx
      | cons z zs =>
        have h := ih hx
        have := strContains_extend_left (y ++ sep) (joinWith sep (z :: zs)) x h
        obtain ⟨a, b, hab⟩ := this
        exact ⟨a, b, by
          simp [joinWith, strData_append, List.append_assoc] at hab ⊢
          exact hab⟩

/-! ## Theorems -/

/-- The try/catch envelope wrapper always carries the given id and sets
exactly one of result / error. -/
theorem toolCallEnvelope_shape (x : Except JsVal JsVal) (i : JsVal) :
    (toolCallEnvelope x i).id = i ∧
      (((toolCallEnvelope x i).result ≠ none ∧ (toolCallEnvelope x i).error = none) ∨
       ((toolCallEnvelope x i).result = none ∧ (toolCallEnvelope x i).error ≠ none)) := by
  cases x <;> simp [toolCallEnvelope, okEnvelope, errEnvelope]

/-- C10: `BaseMCPServer.getTransportMode` returns only "stdio" or "http"
for every argument vector (any `--transport` value other than "http"
yields "stdio"), so the "Unknown transport mode" exit branch of
`BaseMCPServer.run` is unreachable. -/
theorem transport_mode_total (argv : List String) :
    (getTransportMode argv = "stdio" ∨ getTransportMode argv = "http") ∧
    baseRun argv ≠ RunOutcome.unknownModeExit := by
  have hmode : getTransportMode argv = "stdio" ∨ getTransportMode argv = "http" := by
    unfold getTransportMode
    split
    · split_ifs <;> simp
    · split_ifs <;> simp
  refine ⟨hmode, ?_⟩
  rcases hmode with h | h <;> simp [baseRun, h]

/-- The Meta `handleToolCall` envelope carries the request id and exactly
one of result / error, whatever the tool switch does. -/
theorem metaHandleToolCall_shape (st : MetaState) (vendor : MetaVendor) (req : JsVal) :
    (metaHandleToolCall st vendor req).1.id = jsGetProp req "id" ∧
      (((metaHandleToolCall st vendor req).1.result ≠ none ∧
        (metaHandleToolCall st vendor req).1.error = none) ∨
       ((metaHandleToolCall st vendor req).1.result = none ∧
        (metaHandleToolCall st vendor req).1.error ≠ none)) := by
  simpa [metaHandleToolCall] using
    toolCallEnvelope_shape
      (metaToolSwitch st vendor (jsGetProp (jsGetProp req "params") "name")
        (jsOr (jsGetProp (jsGetProp req "params") "arguments") (.vobj []))).1
      (jsGetProp req "id")

/-- The BigQuery `tools/call` envelope carries the request id and exactly
one of result / error, whatever the tool switch does. -/
theorem bqHandleToolCall_shape (st : BqState) (vendor : BqVendor) (req : JsVal) :
    (bqHandleToolCall st vendor req).1.id = jsGetProp req "id" ∧
      (((bqHandleToolCall st vendor req).1.result ≠ none ∧
        (bqHandleToolCall st vendor req).1.error = none) ∨
       ((bqHandleToolCall st vendor req).1.result = none ∧
        (bqHandleToolCall st vendor req).1.error ≠ none)) := by
  simpa [bqHandleToolCall] using
    toolCallEnvelope_shape
      (bqToolSwitch st vendor (jsGetProp (jsGetProp req "params") "name")
        (jsOr (jsGetProp (jsGetProp req "params") "arguments") (.vobj []))).1
      (jsGetProp req "id")

/-- C3: every request object processed by the HTTP /mcp dispatch
(initialize, tools/list, tools/call, or an unknown method) yields an
envelope whose id equals the id of the request and which contains exactly one
of result / error — shown for the Meta instantiation of the shared
`runHTTP` switch and for the own switch of the BigQuery server. -/
theorem mcp_dispatch_envelope_correlation
    (mst : MetaState) (mv : MetaVendor) (bst : BqState) (bv : BqVendor)
    (req : JsVal) (fields : List (String × JsVal)) (_hreq : req = .vobj fields) :
    ((metaMcpDispatch mst mv req).1.id = jsGetProp req "id" ∧
      (((metaMcpDispatch mst mv req).1.result ≠ none ∧
        (metaMcpDispatch mst mv req).1.error = none) ∨
       ((metaMcpDispatch mst mv req).1.result = none ∧
        (metaMcpDispatch mst mv req).1.error ≠ none))) ∧
    ((bqMcpDispatch bst bv req).1.id = jsGetProp req "id" ∧
      (((bqMcpDispatch bst bv req).1.result ≠ none ∧
        (bqMcpDispatch bst bv req).1.error = none) ∨
       ((bqMcpDispatch bst bv req).1.result = none ∧
        (bqMcpDispatch bst bv req).1.error ≠ none))) := by
  constructor
  · unfold metaMcpDispatch
    split_ifs
    · simp [okEnvelope]
    · simp [okEnvelope]
    · exact metaHandleToolCall_shape mst mv req
    · simp [errEnvelope]
  · unfold bqMcpDispatch
    split_ifs
    · simp [okEnvelope]
    · simp [okEnvelope]
    · exact bqHandleToolCall_shape bst bv req
    · simp [errEnvelope]

/-- Witness for C3 at a concrete tools/list request. -/
theorem mcp_dispatch_envelope_correlation_witness :
    (metaMcpDispatch ⟨true, none⟩ (fun _ => Except.ok (.vobj []))
        (.vobj [("method", .vstr "tools/list"), ("id", .vnum 4)])).1.id =
      jsGetProp (.vobj [("method", .vstr "tools/list"), ("id", .vnum 4)]) "id" ∧
    (bqMcpDispatch ⟨true, "US"⟩ (fun _ => Except.ok (.vobj []))
        (.vobj [("method", .vstr "tools/list"), ("id", .vnum 4)])).1.id =
      jsGetProp (.vobj [("method", .vstr "tools/list"), ("id", .vnum 4)]) "id" := by
  have h := mcp_dispatch_envelope_correlation ⟨true, none⟩ (fun _ => Except.ok (.vobj []))
    ⟨true, "US"⟩ (fun _ => Except.ok (.vobj []))
    (.vobj [("method", .vstr "tools/list"), ("id", .vnum 4)]) _ rfl
  exact ⟨h.1.1, h.2.1⟩

/-- C1: a tools/call request whose tool name is none of the registered
tools yields (in both the Meta and the BigQuery HTTP dispatch) an envelope
with error code -32000 and the id of the request, no result, and no vendor
call: the "Unknown tool" throw is caught inside the dispatcher. -/
theorem unknown_tool_yields_error
    (mst : MetaState) (mv : MetaVendor) (bst : BqState) (bv : BqVendor)
    (mreq breq : JsVal)
    (hmm : jsGetProp mreq "method" = .vstr "tools/call")
    (hmn : ∀ s ∈ metaToolNames,
      jsStrEq (jsGetProp (jsGetProp mreq "params") "name") s = false)
    (hbm : jsGetProp breq "method" = .vstr "tools/call")
    (hbn : ∀ s ∈ bqToolNames,
      jsStrEq (jsGetProp (jsGetProp breq "params") "name") s = false) :
    ((metaMcpDispatch mst mv mreq).1.error =
        some ⟨-32000, "Unknown tool: " ++ jsToString (jsGetProp (jsGetProp mreq "params") "name")⟩ ∧
      (metaMcpDispatch mst mv mreq).1.result = none ∧
      (metaMcpDispatch mst mv mreq).1.id = jsGetProp mreq "id" ∧
      (metaMcpDispatch mst mv mreq).2 = []) ∧
    ((bqMcpDispatch bst bv breq).1.error =
        some ⟨-32000, "Unknown tool: " ++ jsToString (jsGetProp (jsGetProp breq "params") "name")⟩ ∧
      (bqMcpDispatch bst bv breq).1.result = none ∧
      (bqMcpDispatch bst bv breq).1.id = jsGetProp breq "id" ∧
      (bqMcpDispatch bst bv breq).2 = []) := by
  constructor
  · have e1 : jsStrEq (jsGetProp mreq "method") "initialize" = false := by
      rw [hmm]; decide
    have e2 : jsStrEq (jsGetProp mreq "method") "tools/list" = false := by
      rw [hmm]; decide
    have e3 : jsStrEq (jsGetProp mreq "method") "tools/call" = true := by
      rw [hmm]; decide
    have n1 := hmn "get_account_info" (by decide)
    have n2 := hmn "list_campaigns" (by decide)
    have n3 := hmn "get_campaign" (by decide)
    have n4 := hmn "list_adsets" (by decide)
    have n5 := hmn "list_ads" (by decide)
    have n6 := hmn "get_insights" (by decide)
    simp [metaMcpDispatch, metaHandleToolCall, metaToolSwitch, e1, e2, e3,
      n1, n2, n3, n4, n5, n6, toolCallEnvelope, errEnvelope, jsErrMessage]
  · have e1 : jsStrEq (jsGetProp breq "method") "initialize" = false := by
      rw [hbm]; decide
    have e2 : jsStrEq (jsGetProp breq "method") "tools/list" = false := by
      rw [hbm]; decide
    have e3 : jsStrEq (jsGetProp breq "method") "tools/call" = true := by
      rw [hbm]; decide
    have n1 := hbn "list_datasets" (by decide)
    have n2 := hbn "list_tables" (by decide)
    have n3 := hbn "get_table_schema" (by decide)
    have n4 := hbn "execute_query" (by decide)
    have n5 := hbn "get_query_results" (by decide)
    simp [bqMcpDispatch, bqHandleToolCall, bqToolSwitch, e1, e2, e3,
      n1, n2, n3, n4, n5, toolCallEnvelope, errEnvelope, jsErrMessage]

/-- A tools/call request for the unregistered name "mystery_tool". -/
def metaUnknownReq : JsVal :=
  .vobj [("method", .vstr "tools/call"),
         ("params", .vobj [("name", .vstr "mystery_tool")]),
         ("id", .vnum 1)]

/-- A BigQuery tools/call request for the unregistered name "drop_table". -/
def bqUnknownReq : JsVal :=
  .vobj [("method", .vstr "tools/call"),
         ("params", .vobj [("name", .vstr "drop_table")]),
         ("id", .vnum 2)]

/-- Witness for C1 at the two concrete unknown-tool requests. -/
theorem unknown_tool_yields_error_witness :
    (metaMcpDispatch ⟨true, none⟩ (fun _ => Except.ok (.vobj [])) metaUnknownReq).1.error =
      some ⟨-32000, "Unknown tool: mystery_tool"⟩ ∧
    (bqMcpDispatch ⟨true, "US"⟩ (fun _ => Except.ok (.vobj [])) bqUnknownReq).1.result = none := by
  have h := unknown_tool_yields_error ⟨true, none⟩ (fun _ => Except.ok (.vobj []))
    ⟨true, "US"⟩ (fun _ => Except.ok (.vobj [])) metaUnknownReq bqUnknownReq
    rfl (by decide) rfl (by decide)
  exact ⟨h.1.1, h.2.2.1⟩

/-- A tools/call request for `get_campaign` that omits the required
`campaignId` argument. -/
def metaMissingGetCampaignReq : JsVal :=
  .vobj [("method", .vstr "tools/call"),
         ("params", .vobj [("name", .vstr "get_campaign"),
                           ("arguments", .vobj [])]),
         ("id", .vnum 7)]

/-- C2 (code bug exhibited): the Meta HTTP dispatcher performs no schema
validation — a `get_campaign` call without the required `campaignId`
still reaches the vendor client (`Campaign(undefined).read(...)` is
invoked), and with a vendor that answers, the dispatcher even returns a
success envelope; yet the declared `get_campaign` input schema lists
`campaignId` as required. -/
theorem get_campaign_missing_arg_reaches_vendor :
    (metaHandleToolCall ⟨true, none⟩ (fun _ => Except.ok (.vobj []))
        metaMissingGetCampaignReq).2 = [MetaVendorCall.campaignRead .vundefined] ∧
    (metaHandleToolCall ⟨true, none⟩ (fun _ => Except.ok (.vobj []))
        metaMissingGetCampaignReq).1.error = none ∧
    jsGetProp metaGetCampaignSchema "required" = .varr [.vstr "campaignId"] := by
  exact ⟨rfl, rfl, rfl⟩

/-- C4: a list call that omits its limit argument requests exactly the
documented default bound from the vendor: 25 for Meta `list_campaigns`,
50 for Google Ads `list_campaigns`, 100 for the maxResults of
BigQuery `execute_query`. -/
theorem omitted_limit_uses_documented_default
    (a b c : JsVal) (st : BqState)
    (ha : jsGetProp a "limit" = .vundefined)
    (hb : jsGetProp b "limit" = .vundefined)
    (hc : jsGetProp c "maxResults" = .vundefined) :
    jsGetProp (metaCampaignListParams a) "limit" = .vnum 25 ∧
    googleListCampaignsLimit b = .vnum 50 ∧
    jsGetProp (bqExecuteQueryOptions st c) "maxResults" = .vnum 100 := by
  refine ⟨?_, ?_, ?_⟩
  · simp only [metaCampaignListParams, ha, jsOr, jsTruthy]
    split <;> rfl
  · simp [googleListCampaignsLimit, hb, jsOr, jsTruthy]
  · simp only [bqExecuteQueryOptions, hc, jsDestructDefault]
    rfl

/-- Witness for C4 at empty argument objects. -/
theorem omitted_limit_uses_documented_default_witness :
    jsGetProp (metaCampaignListParams (.vobj [])) "limit" = .vnum 25 ∧
    googleListCampaignsLimit (.vobj []) = .vnum 50 ∧
    jsGetProp (bqExecuteQueryOptions ⟨true, "US"⟩ (.vobj [])) "maxResults" = .vnum 100 :=
  omitted_limit_uses_documented_default (.vobj []) (.vobj []) (.vobj [])
    ⟨true, "US"⟩ rfl rfl rfl

/-- C9: a caller-supplied limit of 0 is falsy under `args.limit || d`, so
the vendor receives the documented default (25 / 25 / 25 / 50 / 100), not
0, in the Meta list_campaigns, list_adsets and list_ads parameter builders
and the Google Ads list_campaigns and execute_gaql_query bounds. -/
theorem zero_limit_treated_as_omitted
    (a : JsVal) (h : jsGetProp a "limit" = .vnum 0) :
    jsGetProp (metaCampaignListParams a) "limit" = .vnum 25 ∧
    jsGetProp (metaAdsetListParams a) "limit" = .vnum 25 ∧
    jsGetProp (metaAdsListParams a) "limit" = .vnum 25 ∧
    googleListCampaignsLimit a = .vnum 50 ∧
    gaqlQueryLimit a = .vnum 100 := by
  refine ⟨?_, ?_, ?_, ?_, ?_⟩
  · simp only [metaCampaignListParams, h, jsOr, jsTruthy]
    split <;> rfl
  · simp only [metaAdsetListParams, h, jsOr, jsTruthy]
    split <;> rfl
  · simp only [metaAdsListParams, h, jsOr, jsTruthy]
    split <;> rfl
  · simp [googleListCampaignsLimit, h, jsOr, jsTruthy]
  · simp [gaqlQueryLimit, h, jsOr, jsTruthy]

/-- Witness for C9 at `{ limit: 0 }`. -/
theorem zero_limit_treated_as_omitted_witness :
    jsGetProp (metaCampaignListParams (.vobj [("limit", .vnum 0)])) "limit" = .vnum 25 ∧
    googleListCampaignsLimit (.vobj [("limit", .vnum 0)]) = .vnum 50 ∧
    gaqlQueryLimit (.vobj [("limit", .vnum 0)]) = .vnum 100 := by
  have h := zero_limit_treated_as_omitted (.vobj [("limit", .vnum 0)]) rfl
  exact ⟨h.1, h.2.2.2.1, h.2.2.2.2⟩

/-- The date presets `get_insights` declares. -/
def metaDatePresets : List String :=
  ["today", "yesterday", "this_week", "last_week", "this_month",
   "last_month", "lifetime"]

/-- C5: `get_insights` forwards `date_preset` when a preset is supplied,
else `time_range` when a range object is supplied, else the "lifetime"
preset; when both are supplied the call is accepted and exactly one of
the two (the preset) is forwarded. -/
theorem insight_date_param_selection :
    (∀ p tr, p ∈ metaDatePresets →
      metaInsightParams (.vstr p) tr = .vobj [("date_preset", .vstr p)]) ∧
    (∀ fs, metaInsightParams .vundefined (.vobj fs) =
      .vobj [("time_range", .vobj fs)]) ∧
    (metaInsightParams .vundefined .vundefined =
      .vobj [("date_preset", .vstr "lifetime")]) ∧
    (∀ p fs, p ∈ metaDatePresets →
      jsHasProp (metaInsightParams (.vstr p) (.vobj fs)) "date_preset" = true ∧
      jsHasProp (metaInsightParams (.vstr p) (.vobj fs)) "time_range" = false) := by
  refine ⟨?_, ?_, rfl, ?_⟩
  · intro p tr hp
    fin_cases hp <;> rfl
  · intro fs
    rfl
  · intro p fs hp
    fin_cases hp <;> exact ⟨rfl, rfl⟩

/-- Witness for C5 at concrete preset / range arguments. -/
theorem insight_date_param_selection_witness :
    metaInsightParams (.vstr "today") .vundefined =
      .vobj [("date_preset", .vstr "today")] ∧
    metaInsightParams .vundefined
        (.vobj [("since", .vstr "2024-01-01"), ("until", .vstr "2024-01-31")]) =
      .vobj [("time_range",
        .vobj [("since", .vstr "2024-01-01"), ("until", .vstr "2024-01-31")])] ∧
    jsHasProp (metaInsightParams (.vstr "today")
        (.vobj [("since", .vstr "2024-01-01"), ("until", .vstr "2024-01-31")]))
      "time_range" = false := by
  refine ⟨insight_date_param_selection.1 "today" _ (by decide),
    insight_date_param_selection.2.1 _,
    (insight_date_param_selection.2.2.2 "today" _ (by decide)).2⟩


/-- The `execute_gaql_query` handler sends exactly the final query to the
vendor whenever the `query` argument is truthy. -/
theorem executeGaqlHandler_trace (vendor : String → Except JsVal JsVal)
    (args : JsVal) (h : jsTruthy (jsGetProp args "query") = true) :
    (executeGaqlHandler true vendor args).2 = [gaqlFinalQuery args] := by
  unfold executeGaqlHandler
  rw [h]
  simp only [Bool.not_true, Bool.false_eq_true, if_false, Bool.not_false, if_true]
  cases vendor (gaqlFinalQuery args) <;> rfl

/-- C6 counterexample: `execute_gaql_query` forwards the TRIMMED caller
text, so a query with surrounding whitespace that already contains
"limit" is not forwarded "unmodified" — the leading space is stripped
(no bound is appended, but the text still differs from the caller text). -/
theorem gaql_trim_modifies_query_counterexample :
    (executeGaqlHandler true (fun _ => Except.ok (.vobj []))
        (.vobj [("customerId", .vstr "123"),
                ("query", .vstr " SELECT campaign.id FROM campaign LIMIT 5")])).2 =
      ["SELECT campaign.id FROM campaign LIMIT 5"] ∧
    strIncludes (strToLower (jsTrim " SELECT campaign.id FROM campaign LIMIT 5"))
      "limit" = true ∧
    (executeGaqlHandler true (fun _ => Except.ok (.vobj []))
        (.vobj [("customerId", .vstr "123"),
                ("query", .vstr " SELECT campaign.id FROM campaign LIMIT 5")])).2 ≠
      [" SELECT campaign.id FROM campaign LIMIT 5"] := by
  refine ⟨rfl, rfl, by decide⟩

/-- C6 amended: the text forwarded to the vendor is the TRIMMED caller
text — with no bound appended when its lowercase form already contains
"limit", and otherwise with " LIMIT <limit>" appended, where <limit> is
the supplied (truthy) limit or 100 by default. -/
theorem gaql_forwarded_query_characterization
    (q : String) (lim : JsVal) (vendor : String → Except JsVal JsVal)
    (hq : q ≠ "") :
    (strIncludes (strToLower (jsTrim q)) "limit" = true →
      (executeGaqlHandler true vendor
        (.vobj [("customerId", .vstr "123"), ("query", .vstr q),
                ("limit", lim)])).2 = [jsTrim q]) ∧
    (strIncludes (strToLower (jsTrim q)) "limit" = false →
      (executeGaqlHandler true vendor
        (.vobj [("customerId", .vstr "123"), ("query", .vstr q),
                ("limit", lim)])).2 =
        [jsTrim q ++ " LIMIT " ++ jsToString (jsOr lim (.vnum 100))]) := by
  have htr := executeGaqlHandler_trace vendor
    (.vobj [("customerId", .vstr "123"), ("query", .vstr q), ("limit", lim)])
    (by show (q != "") = true; simp [hq])
  have hfq : gaqlFinalQuery
      (.vobj [("customerId", .vstr "123"), ("query", .vstr q), ("limit", lim)]) =
      (if !strIncludes (strToLower (jsTrim q)) "limit" then
        jsTrim q ++ " LIMIT " ++ jsToString (jsOr lim (.vnum 100))
      else jsTrim q) := rfl
  constructor
  · intro hinc
    rw [htr, hfq, hinc]
    simp
  · intro hinc
    rw [htr, hfq, hinc]
    simp

/-- Witness for the amended C6 at a query without a LIMIT clause and an
omitted limit argument. -/
theorem gaql_forwarded_query_characterization_witness :
    strIncludes (strToLower (jsTrim "SELECT campaign.id FROM campaign"))
      "limit" = false ∧
    (executeGaqlHandler true (fun _ => Except.ok (.vobj []))
        (.vobj [("customerId", .vstr "123"),
                ("query", .vstr "SELECT campaign.id FROM campaign"),
                ("limit", .vundefined)])).2 =
      [jsTrim "SELECT campaign.id FROM campaign" ++ " LIMIT " ++
        jsToString (jsOr .vundefined (.vnum 100))] :=
  ⟨rfl, (gaql_forwarded_query_characterization "SELECT campaign.id FROM campaign"
    .vundefined (fun _ => Except.ok (.vobj [])) (by decide)).2 rfl⟩

/-- C7 counterexample: a non-Error object that carries no `errors` array
but a truthy `message` is formatted as that message, not as its string
form `[object Object]` — the final "otherwise" clause of the claim misses the
`error.message` branch of `formatError`. -/
theorem formatError_message_object_counterexample :
    formatError (.vobj [("message", .vstr "boom")]) = "boom" ∧
    jsToString (.vobj [("message", .vstr "boom")]) = "[object Object]" ∧
    formatError (.vobj [("message", .vstr "boom")]) ≠
      jsToString (.vobj [("message", .vstr "boom")]) := by
  refine ⟨rfl, rfl, by decide⟩

/-- Evaluates `formatError` on a plain object, with its match and typeof guards
reduced. -/
theorem formatError_vobj (fs : List (String × JsVal)) :
    formatError (.vobj fs) =
      (if jsTruthy (jsGetProp (.vobj fs) "errors") &&
          jsIsArray (jsGetProp (.vobj fs) "errors") then
        joinWith "; " ((jsArrElems (jsGetProp (.vobj fs) "errors")).map
          (fun s => jsToString (jsOr (jsGetProp s "message") (.vstr "Unknown error"))))
      else if jsTruthy (jsGetProp (.vobj fs) "message") then
        jsToString (jsGetProp (.vobj fs) "message")
      else jsToString (.vobj fs)) := rfl

/-- C7 amended: `formatError` yields the message of an Error instance;
else, for objects carrying a truthy `errors` array, the sub-error
messages joined by "; " (with "Unknown error" for message-less entries);
else, for objects with a truthy `message`, that message; otherwise the
string form of the value. -/
theorem formatError_characterization (e : JsVal) :
    (∀ m, e = .verror m → formatError e = m) ∧
    (∀ fs, e = .vobj fs →
      (jsTruthy (jsGetProp e "errors") && jsIsArray (jsGetProp e "errors")) = true →
      formatError e = joinWith "; " ((jsArrElems (jsGetProp e "errors")).map
        (fun s => jsToString (jsOr (jsGetProp s "message") (.vstr "Unknown error"))))) ∧
    (∀ fs, e = .vobj fs →
      (jsTruthy (jsGetProp e "errors") && jsIsArray (jsGetProp e "errors")) = false →
      jsTruthy (jsGetProp e "message") = true →
      formatError e = jsToString (jsGetProp e "message")) ∧
    (∀ fs, e = .vobj fs →
      (jsTruthy (jsGetProp e "errors") && jsIsArray (jsGetProp e "errors")) = false →
      jsTruthy (jsGetProp e "message") = false →
      formatError e = jsToString e) ∧
    ((∀ m, e ≠ .verror m) → (∀ fs, e ≠ .vobj fs) → formatError e = jsToString e) := by
  refine ⟨?_, ?_, ?_, ?_, ?_⟩
  · intro m hm
    subst hm
    rfl
  · intro fs hfs harr
    subst hfs
    rw [formatError_vobj, if_pos harr]
  · intro fs hfs harr hmsg
    subst hfs
    rw [formatError_vobj, if_neg (by simp [harr]), if_pos hmsg]
  · intro fs hfs harr hmsg
    subst hfs
    rw [formatError_vobj, if_neg (by simp [harr]), if_neg (by simp [hmsg])]
  · intro hne hno
    cases e with
    | verror m => exact absurd rfl (hne m)
    | vobj fs => exact absurd rfl (hno fs)
    | vnull => rfl
    | vundefined => rfl
    | varr xs => rfl
    | vbool b => simp [formatError, jsTypeofObject]
    | vnum n => simp [formatError, jsTypeofObject]
    | vstr s => simp [formatError, jsTypeofObject]

/-- Witness for the amended C7 at an Error instance, an object with an
errors array, an object with only a message, an empty object, and a
number. -/
theorem formatError_characterization_witness :
    formatError (.verror "broke") = "broke" ∧
    formatError (.vobj [("errors", .varr [.vobj [("message", .vstr "a")], .vobj []])]) =
      joinWith "; " ((jsArrElems (jsGetProp
        (.vobj [("errors", .varr [.vobj [("message", .vstr "a")], .vobj []])]) "errors")).map
        (fun s => jsToString (jsOr (jsGetProp s "message") (.vstr "Unknown error")))) ∧
    formatError (.vobj [("message", .vstr "boom")]) =
      jsToString (jsGetProp (.vobj [("message", .vstr "boom")]) "message") ∧
    formatError (.vobj []) = jsToString (JsVal.vobj []) ∧
    formatError (.vnum 5) = jsToString (.vnum 5) := by
  refine ⟨(formatError_characterization (.verror "broke")).1 "broke" rfl,
    (formatError_characterization _).2.1 _ rfl rfl,
    (formatError_characterization _).2.2.1 _ rfl rfl rfl,
    (formatError_characterization _).2.2.2.1 _ rfl rfl rfl,
    (formatError_characterization (.vnum 5)).2.2.2.2
      (fun m h => by cases h) (fun fs h => by cases h)⟩

/-- String append is associative (via the underlying character lists). -/
theorem str_append_assoc (a b c : String) : a ++ b ++ c = a ++ (b ++ c) := by
  cases a
  cases b
  cases c
  show String.mk _ = String.mk _
  rw [List.append_assoc]

/-- C8: constructing a server with a required configuration field absent
from the environment makes initialization throw an error whose message
names the corresponding environment variable — for every Google Ads
required field (customerId, developerToken, clientId, clientSecret,
refreshToken) and every Meta Ads required field (accessToken, appId,
appSecret) — so the process refuses to start. -/
theorem missing_config_refuses_start :
    (∀ (c : GoogleAdsConfig) (field : String), field ∈ googleRequiredFields →
      googleConfigGet c field = none →
      ∃ msg, initializeGoogleAds c = .error msg ∧
        StrContains msg ("GOOGLE_ADS_" ++ camelToEnvVar field)) ∧
    (∀ (c : MetaAdsEnvConfig) (field : String), field ∈ metaRequiredFields →
      metaConfigGet c field = none →
      ∃ msg, initializeMetaAds c = .error msg ∧
        StrContains msg ("META_ADS_" ++ camelToEnvVar field)) := by
  constructor
  · intro c field hmem hnone
    have hmiss : field ∈ googleMissingFields c := by
      unfold googleMissingFields
      exact List.mem_filter.mpr ⟨hmem, by simp [optTruthy, hnone]⟩
    have hlen : (googleMissingFields c).length > 0 :=
      List.length_pos.mpr (List.ne_nil_of_mem hmiss)
    refine ⟨"Missing required Google Ads configuration. Please set the following environment variables:\n"
      ++ joinWith "\n" ((googleMissingFields c).map
           (fun f => "- GOOGLE_ADS_" ++ camelToEnvVar f))
      ++ "\n\nYou can create a .env file in the root directory with these variables.",
      ?_, ?_⟩
    · unfold initializeGoogleAds
      rw [if_pos hlen]
    · have hitem : ("- GOOGLE_ADS_" ++ camelToEnvVar field) ∈
          (googleMissingFields c).map (fun f => "- GOOGLE_ADS_" ++ camelToEnvVar f) :=
        List.mem_map_of_mem _ hmiss
      have hjoin := joinWith_contains "\n" _ _ hitem
      have heq : ("- GOOGLE_ADS_" ++ camelToEnvVar field) =
          "- " ++ ("GOOGLE_ADS_" ++ camelToEnvVar field) := by
        rw [← str_append_assoc]
        rfl
      rw [heq] at hjoin
      exact strContains_extend _ _ _ _ (strContains_dropPre _ "- " _ hjoin)
  · intro c field hmem hnone
    have hmiss : field ∈ metaMissingFields c := by
      unfold metaMissingFields
      exact List.mem_filter.mpr ⟨hmem, by simp [optTruthy, hnone]⟩
    have hlen : (metaMissingFields c).length > 0 :=
      List.length_pos.mpr (List.ne_nil_of_mem hmiss)
    refine ⟨"Missing required Meta Ads configuration. Please set the following environment variables:\n"
      ++ joinWith "\n" ((metaMissingFields c).map
           (fun f => "- META_ADS_" ++ camelToEnvVar f)),
      ?_, ?_⟩
    · unfold initializeMetaAds
      rw [if_pos hlen]
    · have hitem : ("- META_ADS_" ++ camelToEnvVar field) ∈
          (metaMissingFields c).map (fun f => "- META_ADS_" ++ camelToEnvVar f) :=
        List.mem_map_of_mem _ hmiss
      have hjoin := joinWith_contains "\n" _ _ hitem
      have heq : ("- META_ADS_" ++ camelToEnvVar field) =
          "- " ++ ("META_ADS_" ++ camelToEnvVar field) := by
        rw [← str_append_assoc]
        rfl
      rw [heq] at hjoin
      exact strContains_extend_left _ _ _ (strContains_dropPre _ "- " _ hjoin)

/-- Witness for C8: a Google Ads config missing its customerId and a
Meta Ads config missing its accessToken. -/
theorem missing_config_refuses_start_witness :
    ("customerId" ∈ googleRequiredFields ∧
      ∃ msg, initializeGoogleAds ⟨none, some "t", some "i", some "s", some "r"⟩ =
          .error msg ∧
        StrContains msg ("GOOGLE_ADS_" ++ camelToEnvVar "customerId")) ∧
    ("accessToken" ∈ metaRequiredFields ∧
      ∃ msg, initializeMetaAds ⟨none, some "a", some "s", none⟩ = .error msg ∧
        StrContains msg ("META_ADS_" ++ camelToEnvVar "accessToken")) :=
  ⟨⟨by decide, missing_config_refuses_start.1 _ "customerId" (by decide) rfl⟩,
   ⟨by decide, missing_config_refuses_start.2 _ "accessToken" (by decide) rfl⟩⟩
